import Mathlib

/-!
Shallow embedding of the TWT demo application (`main.c`) of
`mtb-example-threadx-wifi-twt`: the bounded-retry Wi-Fi connection loop
(`ConnectWifi`), the iTWT command handlers (`itwt_setup`, `itwt_teardown`),
the IP-address formatter (`get_ip_string`), and the watchdog-timer callback
(`wdt_handler`).  Calls into the wireless connection service
(`cy_wcm_connect_ap`, `cy_wcm_disconnect_ap`, `whd_wifi_twt_teardown`) and
the blocking delays are recorded as an explicit event trace; the service's
behaviour is a parameter (an oracle giving the result code of each call).
-/

namespace TwtDemo

/-- iTWT profile (`cy_wcm_itwt_profile_t` from the WCM interface). -/
inductive cy_wcm_itwt_profile
  | NONE
  | IDLE
  | ACTIVE
deriving DecidableEq, Repr

/-- `#define MAX_WIFI_CONN_RETRIES 15` (main.c:80). -/
def MAX_WIFI_CONN_RETRIES : Nat := 15

/-- `#define IP_STR_LEN 16` (main.c:82). -/
def IP_STR_LEN : Nat := 16

/-- `#define WDT_TIMEOUT_MS (4000)` (main.c:83). -/
def WDT_TIMEOUT_MS : Nat := 4000

/-- `#define CY_RSLT_ERROR ( -1 )` (main.c:84). -/
def CY_RSLT_ERROR : Int := -1

/-- `CY_RSLT_SUCCESS` is the zero result code. -/
def CY_RSLT_SUCCESS : Int := 0

/-- `get_ip_string` (main.c:150-157): formats a 32-bit address as
`"%lu.%lu.%lu.%lu"` from the four byte extracts
`(ip >> 8*k) & 0xFF`, least significant byte first. -/
def get_ip_string (ip : Nat) : String :=
  Nat.repr (ip &&& 0xFF) ++ "." ++
  Nat.repr ((ip >>> 8) &&& 0xFF) ++ "." ++
  Nat.repr ((ip >>> 16) &&& 0xFF) ++ "." ++
  Nat.repr ((ip >>> 24) &&& 0xFF)

/-- Observable events of the connection/session control flow: calls into the
wireless connection service and the blocking delays, in program order. -/
inductive WifiEvent
  | assoc (profile : cy_wcm_itwt_profile) (result : Nat)
  | delay (ms : Nat)
  | ipProduced (s : String)
  | disc (result : Nat)
deriving DecidableEq, Repr

def isAssoc : WifiEvent → Bool
  | .assoc _ _ => true
  | _ => false

def isDelay : WifiEvent → Bool
  | .delay _ => true
  | _ => false

def isDisc : WifiEvent → Bool
  | .disc _ => true
  | _ => false

/-- Number of associate calls (`cy_wcm_connect_ap`) in a trace. -/
def assocCount (l : List WifiEvent) : Nat := l.countP isAssoc

/-- Number of delays (`cy_rtos_delay_milliseconds`) in a trace. -/
def delayCount (l : List WifiEvent) : Nat := l.countP isDelay

/-- Number of disconnection calls (`cy_wcm_disconnect_ap`) in a trace. -/
def discCount (l : List WifiEvent) : Nat := l.countP isDisc

/-- The retry loop of `ConnectWifi` (main.c:282-314).  `results i` is the
result code returned by the `i`-th `cy_wcm_connect_ap` call (0 is success),
`ip` the address assigned on success.  `attempt` is the index of the next
associate call and `remaining = MAX_WIFI_CONN_RETRIES - retry_count` the
retry budget left, so the source's post-increment test
`if (++retry_count >= MAX_WIFI_CONN_RETRIES) return CY_RSLT_ERROR`
is the `remaining = 1` failure case here.  Each iteration performs one
associate call immediately followed by the unconditional 500 ms delay
(main.c:293-294); on success it formats and prints the address and returns
`CY_RSLT_SUCCESS`. -/
def ConnectWifiGo (results : Nat → Nat) (ip : Nat) (profile : cy_wcm_itwt_profile) :
    Nat → Nat → List WifiEvent × Int
  | _, 0 => ([], CY_RSLT_ERROR)
  | attempt, remaining + 1 =>
    if results attempt = 0 then
      ([.assoc profile 0, .delay 500, .ipProduced (get_ip_string ip)], CY_RSLT_SUCCESS)
    else if remaining = 0 then
      ([.assoc profile (results attempt), .delay 500], CY_RSLT_ERROR)
    else
      let rest := ConnectWifiGo results ip profile (attempt + 1) remaining
      (.assoc profile (results attempt) :: .delay 500 :: rest.1, rest.2)

/-- `ConnectWifi` (main.c:267-317): the loop starts with `retry_count = 0`,
i.e. a full budget of `MAX_WIFI_CONN_RETRIES` attempts. -/
def ConnectWifi (profile : cy_wcm_itwt_profile) (results : Nat → Nat) (ip : Nat) :
    List WifiEvent × Int :=
  ConnectWifiGo results ip profile 0 MAX_WIFI_CONN_RETRIES

/-- The trace produced by `n` consecutive failed iterations of the
`ConnectWifi` loop starting at associate call number `attempt`: each
iteration is one associate call immediately followed by the 500 ms delay. -/
def failTrace (results : Nat → Nat) (profile : cy_wcm_itwt_profile) :
    Nat → Nat → List WifiEvent
  | _, 0 => []
  | attempt, n + 1 =>
    .assoc profile (results attempt) :: .delay 500 ::
      failTrace results profile (attempt + 1) n

/-- `delayOnlyAfterAssoc l` holds when every delay in `l` that has a
predecessor is immediately preceded by an associate call (a delay at the
head of the whole trace is ruled out separately). -/
def delayOnlyAfterAssoc : List WifiEvent → Bool
  | x :: y :: rest => (!isDelay y || isAssoc x) && delayOnlyAfterAssoc (y :: rest)
  | _ => true

/-- The profile-token dispatch of `itwt_setup` (main.c:195-207): `argv[1]`
is compared against `"idle"` first, then `"active"`; any other token prints
`Invalid Profile` and returns `-1`.  `pre` is the trace accumulated before
the dispatch (the disconnect call, when one was made). -/
def itwt_dispatch (pre : List WifiEvent) (argv : List String)
    (results : Nat → Nat) (ip : Nat) : List WifiEvent × Int :=
  if argv.getD 1 "" = "idle" then
    let c := ConnectWifi .IDLE results ip
    (pre ++ c.1, c.2)
  else if argv.getD 1 "" = "active" then
    let c := ConnectWifi .ACTIVE results ip
    (pre ++ c.1, c.2)
  else
    (pre, -1)

/-- `itwt_setup` (main.c:176-210).  `connected` is the value of
`cy_wcm_is_connected_to_ap()`, `discResult` the result code
`cy_wcm_disconnect_ap()` would return if called, `results`/`ip` the
associate-call oracle passed on to `ConnectWifi`.  Mirrors the source
order: argument-count check first (main.c:180-184), then the
disconnect-if-connected block, which propagates a disconnect failure
unchanged (main.c:186-193), then the profile-token dispatch. -/
def itwt_setup (argc : Int) (argv : List String) (connected : Bool)
    (discResult : Nat) (results : Nat → Nat) (ip : Nat) : List WifiEvent × Int :=
  if argc < 1 then
    ([], -1)
  else if connected then
    if discResult ≠ 0 then
      ([.disc discResult], (discResult : Int))
    else
      itwt_dispatch [.disc discResult] argv results ip
  else
    itwt_dispatch [] argv results ip

/-- `TWT_CTRL_NEGO_TYPE_0` from the WHD interface header (`whd_wlioctl.h`,
an external collaborator): negotiation type 0, an individual TWT. -/
def TWT_CTRL_NEGO_TYPE_0 : Nat := 0

/-- `whd_twt_teardown_params_t` (WHD interface): the teardown request
record built by `itwt_teardown`. -/
structure whd_twt_teardown_params where
  negotiation_type : Nat
  flow_id : Nat
  bcast_twt_id : Nat
  teardown_all_twt : Nat
deriving DecidableEq, Repr

/-- `itwt_teardown` (main.c:229-247).  `svc` is the wireless connection
service's `whd_wifi_twt_teardown`, mapping the request to a result code.
Returns the list of requests issued together with the handler's return
value, which is the service's result code unchanged. -/
def itwt_teardown (svc : whd_twt_teardown_params → Nat) :
    List whd_twt_teardown_params × Int :=
  let twt_params : whd_twt_teardown_params :=
    { negotiation_type := TWT_CTRL_NEGO_TYPE_0
      flow_id := 0
      bcast_twt_id := 0
      teardown_all_twt := 0 }
  let result := svc twt_params
  ([twt_params], (result : Int))

/-- `cy_wcm_connect_params_t` (main.c:95, fields written at main.c:287-291). -/
structure cy_wcm_connect_params where
  SSID : String
  password : String
  security : Nat
  band : Nat
  itwt_profile : cy_wcm_itwt_profile
deriving DecidableEq, Repr

/-- Connection state of the station as the spec's `ConnectionState`. -/
inductive ConnectionState
  | Disconnected
  | Connecting
  | Connected
  | Failed
deriving DecidableEq, Repr

/-- The state visible to the watchdog-timer context: the hardware liveness
deadline plus the connection data owned by the worker context. -/
structure SysState where
  livenessDeadline : Nat
  connState : ConnectionState
  connParams : cy_wcm_connect_params
deriving DecidableEq, Repr

/-- Modelled from the spec: `thread_ap_watchdog_ConfigureTime` is an external
hardware-watchdog primitive (not in this repository's sources); per the spec
it pushes the hardware liveness deadline forward by the given margin in
units, touching nothing else. -/
def thread_ap_watchdog_ConfigureTime (margin : Nat) (s : SysState) : SysState :=
  { s with livenessDeadline := s.livenessDeadline + margin }

/-- `wdt_handler` (main.c:401-404): the periodic timer callback; its body is
the single call `thread_ap_watchdog_ConfigureTime(5)`. -/
def wdt_handler (s : SysState) : SysState :=
  thread_ap_watchdog_ConfigureTime 5 s

/- Sanity checks on concrete inputs (kept as `example`s, they name no claim
theorem). -/

example : get_ip_string 0xC0A80101 = "1.1.168.192" := by rfl

example : (ConnectWifi .IDLE (fun _ => 1) 0).2 = CY_RSLT_ERROR := by decide

example : assocCount (ConnectWifi .IDLE (fun _ => 1) 0).1 = 15 := by decide

example : (ConnectWifi .IDLE (fun _ => 0) 5).1 =
    [.assoc .IDLE 0, .delay 500, .ipProduced "5.0.0.0"] := by decide

example :
    (itwt_setup 2 ["itwt_setup", "foo"] true 0 (fun _ => 1) 0) =
      ([.disc 0], -1) := by decide

example :
    (itwt_setup 2 ["itwt_setup", "idle"] false 0 (fun _ => 0) 9).1 =
      [.assoc .IDLE 0, .delay 500, .ipProduced "9.0.0.0"] := by decide

/-! ### Trace lemmas about the retry loop -/

/-- One-step unfolding of the `ConnectWifi` loop body. -/
theorem ConnectWifiGo_succ (results : Nat → Nat) (ip : Nat)
    (profile : cy_wcm_itwt_profile) (attempt n : Nat) :
    ConnectWifiGo results ip profile attempt (n + 1) =
      if results attempt = 0 then
        ([.assoc profile 0, .delay 500, .ipProduced (get_ip_string ip)],
         CY_RSLT_SUCCESS)
      else if n = 0 then
        ([.assoc profile (results attempt), .delay 500], CY_RSLT_ERROR)
      else
        (.assoc profile (results attempt) :: .delay 500 ::
            (ConnectWifiGo results ip profile (attempt + 1) n).1,
         (ConnectWifiGo results ip profile (attempt + 1) n).2) := rfl

theorem assocCount_failTrace (results : Nat → Nat) (profile : cy_wcm_itwt_profile) :
    ∀ n attempt, assocCount (failTrace results profile attempt n) = n := by
  intro n
  induction n with
  | zero => intro _; rfl
  | succ m ih =>
    intro attempt
    simp [failTrace, assocCount, List.countP_cons, isAssoc] at ih ⊢
    exact ih (attempt + 1)

theorem delayCount_failTrace (results : Nat → Nat) (profile : cy_wcm_itwt_profile) :
    ∀ n attempt, delayCount (failTrace results profile attempt n) = n := by
  intro n
  induction n with
  | zero => intro _; rfl
  | succ m ih =>
    intro attempt
    simp [failTrace, delayCount, List.countP_cons, isDelay] at ih ⊢
    exact ih (attempt + 1)

theorem discCount_failTrace (results : Nat → Nat) (profile : cy_wcm_itwt_profile) :
    ∀ n attempt, discCount (failTrace results profile attempt n) = 0 := by
  intro n
  induction n with
  | zero => intro _; rfl
  | succ m ih =>
    intro attempt
    simp [failTrace, discCount, List.countP_cons, isDisc] at ih ⊢
    exact ih (attempt + 1)

theorem getLast_failTrace (results : Nat → Nat) (profile : cy_wcm_itwt_profile) :
    ∀ n attempt, 1 ≤ n →
      (failTrace results profile attempt n).getLast? = some (.delay 500) := by
  intro n
  induction n with
  | zero => intro _ h; omega
  | succ m ih =>
    intro attempt _
    cases m with
    | zero => rfl
    | succ p =>
      have := ih (attempt + 1) (by omega)
      simpa [failTrace, List.getLast?_cons_cons] using this

theorem ConnectWifiGo_allFail (results : Nat → Nat) (ip : Nat)
    (profile : cy_wcm_itwt_profile) :
    ∀ remaining attempt,
      (∀ i, attempt ≤ i → i < attempt + remaining → results i ≠ 0) →
      ConnectWifiGo results ip profile attempt remaining =
        (failTrace results profile attempt remaining, CY_RSLT_ERROR) := by
  intro remaining
  induction remaining with
  | zero => intro _ _; rfl
  | succ n ih =>
    intro attempt h
    have h0 : results attempt ≠ 0 := h attempt (Nat.le_refl _) (by omega)
    cases n with
    | zero => simp [ConnectWifiGo, failTrace, h0]
    | succ m =>
      have hrec := ih (attempt + 1) (fun i h1 h2 => h i (by omega) (by omega))
      rw [ConnectWifiGo_succ, if_neg h0, if_neg (Nat.succ_ne_zero m), hrec]
      rfl

theorem ConnectWifiGo_success (results : Nat → Nat) (ip : Nat)
    (profile : cy_wcm_itwt_profile) :
    ∀ remaining attempt k, attempt ≤ k → k < attempt + remaining →
      results k = 0 → (∀ i, attempt ≤ i → i < k → results i ≠ 0) →
      ConnectWifiGo results ip profile attempt remaining =
        (failTrace results profile attempt (k - attempt) ++
          [.assoc profile 0, .delay 500, .ipProduced (get_ip_string ip)],
         CY_RSLT_SUCCESS) := by
  intro remaining
  induction remaining with
  | zero => intro attempt k h1 h2 _ _; omega
  | succ n ih =>
    intro attempt k h1 h2 h3 h4
    rcases Nat.eq_or_lt_of_le h1 with heq | hlt
    · subst heq
      simp [ConnectWifiGo, failTrace, h3, Nat.sub_self]
    · have h0 : results attempt ≠ 0 := h4 attempt (Nat.le_refl _) hlt
      cases n with
      | zero => omega
      | succ m =>
        have hrec := ih (attempt + 1) k hlt (by omega) h3
          (fun i hi1 hi2 => h4 i (by omega) hi2)
        have hd : k - attempt = (k - (attempt + 1)) + 1 := by omega
        rw [hd, ConnectWifiGo_succ, if_neg h0, if_neg (Nat.succ_ne_zero m), hrec]
        rfl

theorem assocCount_ConnectWifiGo_le (results : Nat → Nat) (ip : Nat)
    (profile : cy_wcm_itwt_profile) :
    ∀ remaining attempt,
      assocCount (ConnectWifiGo results ip profile attempt remaining).1 ≤ remaining := by
  intro remaining
  induction remaining with
  | zero => intro _; simp [ConnectWifiGo, assocCount]
  | succ n ih =>
    intro attempt
    by_cases h0 : results attempt = 0
    · simp [ConnectWifiGo, h0, assocCount, List.countP_cons, isAssoc]
    · cases n with
      | zero => simp [ConnectWifiGo, h0, assocCount, List.countP_cons, isAssoc]
      | succ m =>
        have := ih (attempt + 1)
        rw [ConnectWifiGo_succ, if_neg h0, if_neg (Nat.succ_ne_zero m)]
        simp [assocCount, List.countP_cons, isAssoc, isDelay] at this ⊢
        omega

theorem delayCount_eq_assocCount_ConnectWifiGo (results : Nat → Nat) (ip : Nat)
    (profile : cy_wcm_itwt_profile) :
    ∀ remaining attempt,
      delayCount (ConnectWifiGo results ip profile attempt remaining).1 =
        assocCount (ConnectWifiGo results ip profile attempt remaining).1 := by
  intro remaining
  induction remaining with
  | zero => intro _; rfl
  | succ n ih =>
    intro attempt
    by_cases h0 : results attempt = 0
    · simp [ConnectWifiGo, h0, assocCount, delayCount, List.countP_cons, isAssoc, isDelay]
    · cases n with
      | zero =>
        simp [ConnectWifiGo, h0, assocCount, delayCount, List.countP_cons, isAssoc, isDelay]
      | succ m =>
        have := ih (attempt + 1)
        rw [ConnectWifiGo_succ, if_neg h0, if_neg (Nat.succ_ne_zero m)]
        simp [assocCount, delayCount, List.countP_cons, isAssoc, isDelay] at this ⊢
        omega

theorem discCount_ConnectWifiGo (results : Nat → Nat) (ip : Nat)
    (profile : cy_wcm_itwt_profile) :
    ∀ remaining attempt,
      discCount (ConnectWifiGo results ip profile attempt remaining).1 = 0 := by
  intro remaining
  induction remaining with
  | zero => intro _; rfl
  | succ n ih =>
    intro attempt
    by_cases h0 : results attempt = 0
    · simp [ConnectWifiGo, h0, discCount, List.countP_cons, isDisc]
    · cases n with
      | zero => simp [ConnectWifiGo, h0, discCount, List.countP_cons, isDisc]
      | succ m =>
        have := ih (attempt + 1)
        rw [ConnectWifiGo_succ, if_neg h0, if_neg (Nat.succ_ne_zero m)]
        simp [discCount, List.countP_cons, isDisc] at this ⊢
        exact this

theorem head_ConnectWifiGo (results : Nat → Nat) (ip : Nat)
    (profile : cy_wcm_itwt_profile) :
    ∀ remaining attempt, 1 ≤ remaining →
      ((ConnectWifiGo results ip profile attempt remaining).1).head? =
        some (.assoc profile (results attempt)) := by
  intro remaining attempt h
  cases remaining with
  | zero => omega
  | succ n =>
    by_cases h0 : results attempt = 0
    · simp [ConnectWifiGo, h0]
    · cases n with
      | zero => simp [ConnectWifiGo, h0]
      | succ m =>
        rw [ConnectWifiGo_succ, if_neg h0, if_neg (Nat.succ_ne_zero m)]
        rfl

theorem delayOnlyAfterAssoc_cons₂ (p : cy_wcm_itwt_profile) (r ms : Nat)
    (l : List WifiEvent) (h : delayOnlyAfterAssoc l = true)
    (h2 : ∀ d, l.head? ≠ some (.delay d)) :
    delayOnlyAfterAssoc (.assoc p r :: .delay ms :: l) = true := by
  cases l with
  | nil => rfl
  | cons a t =>
    cases a with
    | delay d => exact absurd rfl (h2 d)
    | assoc q s => simpa [delayOnlyAfterAssoc, isDelay, isAssoc] using h
    | ipProduced s => simpa [delayOnlyAfterAssoc, isDelay, isAssoc] using h
    | disc s => simpa [delayOnlyAfterAssoc, isDelay, isAssoc] using h

theorem delayOnlyAfterAssoc_ConnectWifiGo (results : Nat → Nat) (ip : Nat)
    (profile : cy_wcm_itwt_profile) :
    ∀ remaining attempt,
      delayOnlyAfterAssoc (ConnectWifiGo results ip profile attempt remaining).1
        = true := by
  intro remaining
  induction remaining with
  | zero => intro _; rfl
  | succ n ih =>
    intro attempt
    by_cases h0 : results attempt = 0
    · simp [ConnectWifiGo, h0, delayOnlyAfterAssoc, isDelay, isAssoc]
    · cases n with
      | zero => simp [ConnectWifiGo, h0, delayOnlyAfterAssoc, isDelay, isAssoc]
      | succ m =>
        have hh := head_ConnectWifiGo results ip profile (m + 1) (attempt + 1)
          (by omega)
        have h2 : ∀ d,
            ((ConnectWifiGo results ip profile (attempt + 1) (m + 1)).1).head? ≠
              some (.delay d) := by
          intro d hcontra
          rw [hh] at hcontra
          exact WifiEvent.noConfusion (Option.some.inj hcontra)
        have := delayOnlyAfterAssoc_cons₂ profile (results attempt) 500
          (ConnectWifiGo results ip profile (attempt + 1) (m + 1)).1
          (ih (attempt + 1)) h2
        rw [ConnectWifiGo_succ, if_neg h0, if_neg (Nat.succ_ne_zero m)]
        exact this

/-! ### Claim theorems -/

/-- C2: for every sequence of associate-call outcomes, `ConnectWifi`
invokes the associate call at most `MAX_WIFI_CONN_RETRIES` (15) times; if
all 15 attempts fail it terminates with the retries-exhausted error after
exactly 15 calls, and if the first success is attempt `k` (zero-based,
`k < 15`) it terminates at that attempt with success after exactly `k + 1`
calls. -/
theorem C2_connect_retry_bound (results : Nat → Nat) (ip : Nat)
    (profile : cy_wcm_itwt_profile) :
    assocCount (ConnectWifi profile results ip).1 ≤ MAX_WIFI_CONN_RETRIES ∧
    ((∀ i, i < MAX_WIFI_CONN_RETRIES → results i ≠ 0) →
      (ConnectWifi profile results ip).2 = CY_RSLT_ERROR ∧
      assocCount (ConnectWifi profile results ip).1 = MAX_WIFI_CONN_RETRIES) ∧
    (∀ k, k < MAX_WIFI_CONN_RETRIES → results k = 0 →
      (∀ i, i < k → results i ≠ 0) →
      (ConnectWifi profile results ip).2 = CY_RSLT_SUCCESS ∧
      assocCount (ConnectWifi profile results ip).1 = k + 1) := by
  refine ⟨?_, ?_, ?_⟩
  · exact assocCount_ConnectWifiGo_le results ip profile MAX_WIFI_CONN_RETRIES 0
  · intro h
    have he := ConnectWifiGo_allFail results ip profile MAX_WIFI_CONN_RETRIES 0
      (fun i _ h2 => h i (by omega))
    unfold ConnectWifi
    rw [he]
    exact ⟨rfl, assocCount_failTrace results profile MAX_WIFI_CONN_RETRIES 0⟩
  · intro k hk h0 hprev
    have he := ConnectWifiGo_success results ip profile MAX_WIFI_CONN_RETRIES 0 k
      (Nat.zero_le k) (by omega) h0 (fun i _ h2 => hprev i h2)
    unfold ConnectWifi
    rw [he]
    refine ⟨rfl, ?_⟩
    have h1 := assocCount_failTrace results profile (k - 0) 0
    simp [assocCount, List.countP_append, List.countP_cons, isAssoc] at h1 ⊢
    omega

theorem C2_connect_retry_bound_witness :
    (ConnectWifi .ACTIVE (fun _ => 1) 7).2 = CY_RSLT_ERROR ∧
    assocCount (ConnectWifi .ACTIVE (fun _ => 1) 7).1 = MAX_WIFI_CONN_RETRIES :=
  (C2_connect_retry_bound (fun _ => 1) 7 .ACTIVE).2.1 (by decide)

/-- C3 as stated is false at a concrete input: when every associate call
fails (`results ≡ 1`), all 15 attempts are made, the retries-exhausted
error is returned, and the final event of the trace — after the 15th (last)
failed attempt and before the error is reported — is the 500 ms delay. -/
theorem C3_counterexample :
    ((ConnectWifi .IDLE (fun _ => 1) 0).1).getLast? = some (.delay 500) ∧
    (ConnectWifi .IDLE (fun _ => 1) 0).2 = CY_RSLT_ERROR ∧
    assocCount (ConnectWifi .IDLE (fun _ => 1) 0).1 = MAX_WIFI_CONN_RETRIES := by
  decide

/-- C3 (amended): the 500 ms delay never occurs before the first associate
call, and every delay with a predecessor is immediately preceded by an
associate call (the delay only ever directly follows an associate call);
but when all 15 attempts fail, one delay does occur after the 15th failed
attempt, immediately before the retries-exhausted error is reported. -/
theorem C3_delay_placement (results : Nat → Nat) (ip : Nat)
    (profile : cy_wcm_itwt_profile) :
    (∀ ms, ((ConnectWifi profile results ip).1).head? ≠ some (.delay ms)) ∧
    delayOnlyAfterAssoc (ConnectWifi profile results ip).1 = true ∧
    ((∀ i, i < MAX_WIFI_CONN_RETRIES → results i ≠ 0) →
      ((ConnectWifi profile results ip).1).getLast? = some (.delay 500) ∧
      (ConnectWifi profile results ip).2 = CY_RSLT_ERROR) := by
  refine ⟨?_, ?_, ?_⟩
  · intro ms hcontra
    have hh := head_ConnectWifiGo results ip profile MAX_WIFI_CONN_RETRIES 0
      (by decide)
    unfold ConnectWifi at hcontra
    rw [hh] at hcontra
    exact WifiEvent.noConfusion (Option.some.inj hcontra)
  · exact delayOnlyAfterAssoc_ConnectWifiGo results ip profile
      MAX_WIFI_CONN_RETRIES 0
  · intro h
    have he := ConnectWifiGo_allFail results ip profile MAX_WIFI_CONN_RETRIES 0
      (fun i _ h2 => h i (by omega))
    unfold ConnectWifi
    rw [he]
    exact ⟨getLast_failTrace results profile MAX_WIFI_CONN_RETRIES 0 (by decide),
      rfl⟩

theorem C3_delay_placement_witness :
    ((ConnectWifi .IDLE (fun _ => 2) 3).1).getLast? = some (.delay 500) ∧
    (ConnectWifi .IDLE (fun _ => 2) 3).2 = CY_RSLT_ERROR :=
  (C3_delay_placement (fun _ => 2) 3 .IDLE).2.2 (by decide)

/-- C9: in every execution of `ConnectWifi` the 500 ms delay runs after
every associate call, including a successful one: the number of delays
equals the number of associate calls, and on a first success at attempt `k`
the trace is `k` failed attempt/delay pairs, then the successful associate
call, then one more 500 ms delay, and only then the address production. -/
theorem C9_delay_after_every_attempt (results : Nat → Nat) (ip : Nat)
    (profile : cy_wcm_itwt_profile) :
    delayCount (ConnectWifi profile results ip).1 =
      assocCount (ConnectWifi profile results ip).1 ∧
    (∀ k, k < MAX_WIFI_CONN_RETRIES → results k = 0 →
      (∀ i, i < k → results i ≠ 0) →
      (ConnectWifi profile results ip).1 =
        failTrace results profile 0 k ++
          [.assoc profile 0, .delay 500, .ipProduced (get_ip_string ip)]) := by
  constructor
  · exact delayCount_eq_assocCount_ConnectWifiGo results ip profile
      MAX_WIFI_CONN_RETRIES 0
  · intro k hk h0 hprev
    have he := ConnectWifiGo_success results ip profile MAX_WIFI_CONN_RETRIES 0 k
      (Nat.zero_le k) (by omega) h0 (fun i _ h2 => hprev i h2)
    unfold ConnectWifi
    rw [he]
    simp

theorem C9_delay_after_every_attempt_witness :
    (ConnectWifi .ACTIVE (fun _ => 0) 1).1 =
      failTrace (fun _ => 0) .ACTIVE 0 0 ++
        [.assoc .ACTIVE 0, .delay 500, .ipProduced (get_ip_string 1)] :=
  (C9_delay_after_every_attempt (fun _ => 0) 1 .ACTIVE).2 0 (by decide) rfl
    (fun i h => absurd h (Nat.not_lt_zero i))

/-- C1 is false as stated: with the station connected, `itwt_setup` with
the invalid profile token `"foo"` issues one disconnection call (the
disconnect block precedes profile validation), and when that disconnect
fails with code 7 the handler returns 7, not the invalid-argument `-1`. -/
theorem C1_counterexample :
    discCount (itwt_setup 2 ["itwt_setup", "foo"] true 0 (fun _ => 1) 0).1 = 1 ∧
    itwt_setup 2 ["itwt_setup", "foo"] true 7 (fun _ => 1) 0 = ([.disc 7], 7) := by
  decide

/-- C1 (amended): for a profile token other than `"active"`/`"idle"`
(with the argument-count check passed), `itwt_setup` issues zero
association calls; when the station is not connected it performs no
service call at all and returns `-1`; when connected it issues exactly one
disconnection call before validating the token, and returns `-1` only when
that disconnect succeeds, otherwise the disconnect error code unchanged. -/
theorem C1_invalid_profile (argc : Int) (argv : List String) (connected : Bool)
    (discResult : Nat) (results : Nat → Nat) (ip : Nat)
    (hargc : 1 ≤ argc) (hni : argv.getD 1 "" ≠ "idle")
    (hna : argv.getD 1 "" ≠ "active") :
    assocCount (itwt_setup argc argv connected discResult results ip).1 = 0 ∧
    (connected = false →
      itwt_setup argc argv connected discResult results ip = ([], -1)) ∧
    (connected = true →
      discCount (itwt_setup argc argv connected discResult results ip).1 = 1 ∧
      (discResult = 0 →
        itwt_setup argc argv connected discResult results ip =
          ([.disc 0], -1)) ∧
      (discResult ≠ 0 →
        itwt_setup argc argv connected discResult results ip =
          ([.disc discResult], (discResult : Int)))) := by
  have hlt : ¬ (argc < 1) := by omega
  have hni' : argv[1]?.getD "" ≠ "idle" := by simpa using hni
  have hna' : argv[1]?.getD "" ≠ "active" := by simpa using hna
  cases connected with
  | false =>
    simp [itwt_setup, itwt_dispatch, hlt, hni', hna', assocCount, discCount]
  | true =>
    by_cases hd : discResult = 0
    · subst hd
      simp [itwt_setup, itwt_dispatch, hlt, hni', hna', assocCount, discCount,
        List.countP_cons, isAssoc, isDisc]
    · simp [itwt_setup, itwt_dispatch, hlt, hni', hna', hd, assocCount, discCount,
        List.countP_cons, isAssoc, isDisc]

theorem C1_invalid_profile_witness :
    itwt_setup 2 ["itwt_setup", "bogus"] true 5 (fun _ => 1) 0 =
      ([.disc 5], 5) :=
  ((C1_invalid_profile 2 ["itwt_setup", "bogus"] true 5 (fun _ => 1) 0
    (by decide) (by decide) (by decide)).2.2 rfl).2.2 (by decide)

/-- C4: for a valid profile token: when the station is connected, the
disconnect call is issued exactly once, before any associate call; when the
disconnect fails, no associate call is made and its error code is returned
unchanged; when not connected, no disconnect call is issued. -/
theorem C4_setup_disconnect_first (argc : Int) (argv : List String)
    (connected : Bool) (discResult : Nat) (results : Nat → Nat) (ip : Nat)
    (p : cy_wcm_itwt_profile) (hargc : 1 ≤ argc)
    (hp : (argv.getD 1 "" = "idle" ∧ p = .IDLE) ∨
          (argv.getD 1 "" = "active" ∧ p = .ACTIVE)) :
    (connected = true → discResult ≠ 0 →
      itwt_setup argc argv connected discResult results ip =
        ([.disc discResult], (discResult : Int))) ∧
    (connected = true → discResult = 0 →
      itwt_setup argc argv connected discResult results ip =
        (.disc 0 :: (ConnectWifi p results ip).1,
         (ConnectWifi p results ip).2) ∧
      discCount (ConnectWifi p results ip).1 = 0) ∧
    (connected = false →
      itwt_setup argc argv connected discResult results ip =
        ((ConnectWifi p results ip).1, (ConnectWifi p results ip).2)) := by
  have hlt : ¬ (argc < 1) := by omega
  have hdisc0 : discCount (ConnectWifi p results ip).1 = 0 :=
    discCount_ConnectWifiGo results ip p MAX_WIFI_CONN_RETRIES 0
  rcases hp with ⟨ht, hpe⟩ | ⟨ht, hpe⟩
  · subst hpe
    have ht' : argv[1]?.getD "" = "idle" := by simpa using ht
    refine ⟨fun hc hd => ?_, fun hc hd => ⟨?_, hdisc0⟩, fun hc => ?_⟩ <;> subst hc
    · simp [itwt_setup, hlt, hd]
    · subst hd
      simp [itwt_setup, itwt_dispatch, hlt, ht']
    · simp [itwt_setup, itwt_dispatch, hlt, ht']
  · subst hpe
    have ht' : argv[1]?.getD "" = "active" := by simpa using ht
    refine ⟨fun hc hd => ?_, fun hc hd => ⟨?_, hdisc0⟩, fun hc => ?_⟩ <;> subst hc
    · simp [itwt_setup, hlt, hd]
    · subst hd
      simp [itwt_setup, itwt_dispatch, hlt, ht']
    · simp [itwt_setup, itwt_dispatch, hlt, ht']

theorem C4_setup_disconnect_first_witness :
    itwt_setup 2 ["itwt_setup", "idle"] true 9 (fun _ => 1) 0 =
      ([.disc 9], (9 : Int)) :=
  (C4_setup_disconnect_first 2 ["itwt_setup", "idle"] true 9 (fun _ => 1) 0
    .IDLE (by decide) (Or.inl ⟨rfl, rfl⟩)).1 rfl (by decide)

/-- C7: with fewer arguments than the declared minimum (`argc < 1`),
`itwt_setup` returns `-1` with an empty event trace, independently of the
argument vector, the connection state, and the service oracles — so no
disconnect, no connect, and no read of the absent profile argument. -/
theorem C7_insufficient_args (argc : Int) (argv : List String)
    (connected : Bool) (discResult : Nat) (results : Nat → Nat) (ip : Nat)
    (h : argc < 1) :
    itwt_setup argc argv connected discResult results ip = ([], -1) := by
  simp [itwt_setup, h]

theorem C7_insufficient_args_witness :
    itwt_setup 0 [] false 0 (fun _ => 0) 0 = ([], -1) :=
  C7_insufficient_args 0 [] false 0 (fun _ => 0) 0 (by decide)

/-- C5: `itwt_teardown` issues exactly one teardown request to the wireless
connection service, with negotiation type 0 (`TWT_CTRL_NEGO_TYPE_0`), flow
id 0, broadcast-TWT id 0, and the teardown-all flag cleared, and returns
the service's result code unchanged (in particular a non-zero failure code
is passed through as-is); the handler takes no session or connection state
as input, so the request is independent of any prior setup profile and of
the association state. -/
theorem C5_teardown_request (svc : whd_twt_teardown_params → Nat) :
    itwt_teardown svc =
      ([{ negotiation_type := 0, flow_id := 0, bcast_twt_id := 0,
          teardown_all_twt := 0 }],
       (svc { negotiation_type := 0, flow_id := 0, bcast_twt_id := 0,
              teardown_all_twt := 0 } : Int)) := rfl

/-- C8: each tick of the periodic watchdog timer (period
`WDT_TIMEOUT_MS` = 4000 ms) extends the liveness deadline by exactly the
fixed margin of 5 units and modifies nothing else: the connection state and
the connection parameters are untouched. -/
theorem C8_wdt_frame (s : SysState) :
    (wdt_handler s).livenessDeadline = s.livenessDeadline + 5 ∧
    (wdt_handler s).connState = s.connState ∧
    (wdt_handler s).connParams = s.connParams ∧
    WDT_TIMEOUT_MS = 4000 :=
  ⟨rfl, rfl, rfl, rfl⟩

theorem and255_eq_mod (n : Nat) : n &&& 0xFF = n % 2 ^ 8 := by
  have h := Nat.and_pow_two_sub_one_eq_mod n 8
  norm_num at h ⊢
  exact h

/-- C6: a successful connect produces (prints) exactly the address string
built by `get_ip_string`, and for every 32-bit address that string has the
form `d0.d1.d2.d3` where each decimal field `di` is the `i`-th 8-bit
extract of the address (so each field is in `[0, 255]`). -/
theorem C6_ip_string_form (ip : Nat) (_hip : ip < 2 ^ 32) :
    (ip &&& 0xFF) ≤ 255 ∧ ((ip >>> 8) &&& 0xFF) ≤ 255 ∧
    ((ip >>> 16) &&& 0xFF) ≤ 255 ∧ ((ip >>> 24) &&& 0xFF) ≤ 255 ∧
    (ip &&& 0xFF) = ip % 2 ^ 8 ∧
    ((ip >>> 8) &&& 0xFF) = ip / 2 ^ 8 % 2 ^ 8 ∧
    ((ip >>> 16) &&& 0xFF) = ip / 2 ^ 16 % 2 ^ 8 ∧
    ((ip >>> 24) &&& 0xFF) = ip / 2 ^ 24 % 2 ^ 8 ∧
    get_ip_string ip =
      Nat.repr (ip &&& 0xFF) ++ "." ++ Nat.repr ((ip >>> 8) &&& 0xFF) ++ "." ++
      Nat.repr ((ip >>> 16) &&& 0xFF) ++ "." ++
      Nat.repr ((ip >>> 24) &&& 0xFF) ∧
    (∀ results profile, results 0 = 0 →
      ((ConnectWifi profile results ip).1).getLast? =
        some (.ipProduced (get_ip_string ip))) := by
  refine ⟨Nat.and_le_right, Nat.and_le_right, Nat.and_le_right,
    Nat.and_le_right, and255_eq_mod ip, ?_, ?_, ?_, rfl, ?_⟩
  · rw [Nat.shiftRight_eq_div_pow, and255_eq_mod]
  · rw [Nat.shiftRight_eq_div_pow, and255_eq_mod]
  · rw [Nat.shiftRight_eq_div_pow, and255_eq_mod]
  · intro results profile h0
    have he := ConnectWifiGo_success results ip profile MAX_WIFI_CONN_RETRIES 0 0
      (Nat.le_refl 0) (by decide) h0 (fun i _ h2 => absurd h2 (Nat.not_lt_zero i))
    unfold ConnectWifi
    rw [he]
    rfl

theorem C6_ip_string_form_witness :
    ((ConnectWifi .IDLE (fun _ => 0) 0xC0A80101).1).getLast? =
      some (.ipProduced (get_ip_string 0xC0A80101)) :=
  (C6_ip_string_form 0xC0A80101 (by norm_num)).2.2.2.2.2.2.2.2.2
    (fun _ => 0) .IDLE rfl

set_option maxRecDepth 100000 in
theorem repr_length_le_three : ∀ n, n < 256 → (Nat.repr n).length ≤ 3 := by
  decide

/-- C10: for every 32-bit address the dotted-decimal string produced by
`get_ip_string` has at most 15 characters (each byte field prints at most
3 digits), so with its terminating NUL it fits the 16-byte (`IP_STR_LEN`)
destination buffer used by `ConnectWifi`. -/
theorem C10_ip_string_fits (ip : Nat) (_hip : ip < 2 ^ 32) :
    (get_ip_string ip).length ≤ 15 ∧
    (get_ip_string ip).length + 1 ≤ IP_STR_LEN := by
  have b0 : ip &&& 0xFF ≤ 255 := Nat.and_le_right
  have b1 : (ip >>> 8) &&& 0xFF ≤ 255 := Nat.and_le_right
  have b2 : (ip >>> 16) &&& 0xFF ≤ 255 := Nat.and_le_right
  have b3 : (ip >>> 24) &&& 0xFF ≤ 255 := Nat.and_le_right
  have h0 := repr_length_le_three (ip &&& 0xFF) (by omega)
  have h1 := repr_length_le_three ((ip >>> 8) &&& 0xFF) (by omega)
  have h2 := repr_length_le_three ((ip >>> 16) &&& 0xFF) (by omega)
  have h3 := repr_length_le_three ((ip >>> 24) &&& 0xFF) (by omega)
  have hdot : ("." : String).length = 1 := rfl
  have hlen : (get_ip_string ip).length =
      (Nat.repr (ip &&& 0xFF)).length +
      (Nat.repr ((ip >>> 8) &&& 0xFF)).length +
      (Nat.repr ((ip >>> 16) &&& 0xFF)).length +
      (Nat.repr ((ip >>> 24) &&& 0xFF)).length + 3 := by
    simp only [get_ip_string, String.length_append, hdot]
    omega
  refine ⟨by omega, ?_⟩
  have hbuf : IP_STR_LEN = 16 := rfl
  omega

theorem C10_ip_string_fits_witness :
    (get_ip_string 0xFFFFFFFF).length ≤ 15 ∧
    (get_ip_string 0xFFFFFFFF).length + 1 ≤ IP_STR_LEN :=
  C10_ip_string_fits 0xFFFFFFFF (by norm_num)

end TwtDemo
